import Mathlib

/-!
Verification of the Malspy backend (FastAPI Android-package malware scanner).

Shallow embedding of the Python sources:
  * `src/Backend/app/analyzer.py`   — suspicious-API matching, byte scanners,
    dynamic feature extraction, Policy A bucketing, action mapping;
  * `src/Backend/app/main.py`       — the three analysis endpoints (Policy B
    weighted heuristics, 4-way verdict thresholds, classifier override);
  * `src/Backend/app/ml_model.py`   — the 5-dimensional classifier feature vector;
  * `src/Backend/app/risk_model.py` — Policy C normalized scoring with 3-level verdicts.

Machine reals (Python floats) are modelled as rationals; the external
`androguard.AnalyzeAPK` container parser is modelled by its outcome, a value of
type `Except String ApkData` (a parse failure carries the exception message);
the optional trained classifier is modelled as an abstract probability function
`List Rat -> Rat` over the extracted feature vector.
-/

/-! ## Generic string helpers (Python `in`, `sorted`, `.lower()`, `.endswith`, `os.path.basename`) -/

/-- Is `p` a prefix of `cs`? (character-by-character). -/
def isPre : List Char → List Char → Bool
  | [], _ => true
  | _ :: _, [] => false
  | a :: as, b :: bs => a == b && isPre as bs

/-- Substring containment on character lists: Python's `needle in hay`. -/
def containsSubL (needle : List Char) : List Char → Bool
  | [] => isPre needle []
  | c :: rest => isPre needle (c :: rest) || containsSubL needle rest

/-- Python's `needle in hay` on strings (substring containment). -/
def substr (needle hay : String) : Bool := containsSubL needle.toList hay.toList

/-- Lexicographic comparison of character lists (code-point order, as Python compares `str`). -/
def listLe : List Char → List Char → Bool
  | [], _ => true
  | _ :: _, [] => false
  | a :: as, b :: bs => if a < b then true else if b < a then false else listLe as bs

/-- Lexicographic `<=` on strings, as used by Python's `sorted`. -/
def strLe (a b : String) : Bool := listLe a.toList b.toList

/-- Insert a string into a sorted list (insertion sort step). -/
def insSorted (s : String) : List String → List String
  | [] => [s]
  | t :: ts => if strLe s t then s :: t :: ts else t :: insSorted s ts

/-- Python's `sorted` on a list of strings (insertion sort by code-point order). -/
def ssort : List String → List String
  | [] => []
  | s :: ts => insSorted s (ssort ts)

/-- Build a string back from a character list. -/
def strOfChars (cs : List Char) : String := String.mk cs

/-- Python's `str.lower()` (character-wise). -/
def lowerStr (s : String) : String := strOfChars (s.toList.map Char.toLower)

/-- Python's `str.endswith(suf)`. -/
def endsWithStr (suf s : String) : Bool := isPre suf.toList.reverse s.toList.reverse

/-- Python's `os.path.basename`: the part after the last slash. -/
def basename (s : String) : String :=
  strOfChars ((s.toList.reverse.takeWhile (fun c => !(c == '/'))).reverse)

/-- Python's `min` on two rationals, by a computable comparison. -/
def pymin (a b : ℚ) : ℚ := if a ≤ b then a else b

/-- Python's `max` on two rationals, by a computable comparison. -/
def pymax (a b : ℚ) : ℚ := if a ≤ b then b else a

/-- `len(set(xs) & set(catalog))` for a duplicate-free `catalog`. -/
def interCount (xs catalog : List String) : Nat :=
  (xs.dedup.filter (fun x => catalog.contains x)).length

theorem pymin_eq_min (a b : ℚ) : pymin a b = min a b := by
  by_cases h : a ≤ b <;> simp [pymin, min_def, h]

theorem pymax_eq_max (a b : ℚ) : pymax a b = max a b := by
  rcases le_total a b with h | h
  · rw [pymax, if_pos h, max_eq_right h]
  · by_cases h' : a ≤ b
    · rw [pymax, if_pos h', max_eq_right h']
    · rw [pymax, if_neg h', max_eq_left h]

theorem mem_insSorted {x s : String} {l : List String} :
    x ∈ insSorted s l ↔ x = s ∨ x ∈ l := by
  induction l with
  | nil => simp [insSorted]
  | cons t ts ih =>
    rw [insSorted]
    by_cases h : strLe s t = true
    · simp [h]
    · simp only [if_neg h, List.mem_cons, ih]
      tauto

theorem mem_ssort {x : String} {l : List String} : x ∈ ssort l ↔ x ∈ l := by
  induction l with
  | nil => simp [ssort]
  | cons s ts ih => rw [ssort]; simp [mem_insSorted, ih]

theorem length_insSorted (s : String) (l : List String) :
    (insSorted s l).length = l.length + 1 := by
  induction l with
  | nil => simp [insSorted]
  | cons t ts ih =>
    rw [insSorted]
    by_cases h : strLe s t = true
    · simp [h]
    · simp only [if_neg h, List.length_cons, ih]

theorem length_ssort (l : List String) : (ssort l).length = l.length := by
  induction l with
  | nil => rfl
  | cons s ts ih => rw [ssort, length_insSorted, ih, List.length_cons]

/-! ## The byte scanners of `analyzer.py`

`URL_RE  = (https?://[^\s'"<>]+)`  and
`IP_RE   = \b(?:(?:25[0-5]|2[0-4]\d|[01]?\d?\d)\.){3}(?:25[0-5]|2[0-4]\d|[01]?\d?\d)\b`,
run with `re.finditer` (leftmost, non-overlapping) over the raw package bytes.
The backtracking semantics of the Python patterns is reproduced directly;
scanners take fuel equal to the input length, which each step strictly decreases,
and `ipScanF_fuel_irrel` below shows the fuel choice is immaterial. -/

/-- A decimal digit, the `\d` class of the byte patterns. -/
def isDig (c : Char) : Bool := '0' ≤ c && c ≤ '9'

/-- Python's `\w` class for byte patterns: `[a-zA-Z0-9_]`. -/
def isWordChar (c : Char) : Bool := c.isAlpha || isDig c || c == '_'

/-- Numeric value of a digit string. -/
def octVal (m : List Char) : Nat := m.foldl (fun a c => 10 * a + (c.toNat - 48)) 0

/-- The three-character alternatives of one octet of `IP_RE`:
`25[0-5]`, `2[0-4]\d`, and the greedy 3-digit case `[01]\d\d` of `[01]?\d?\d`. -/
def okt3 : List Char → Bool
  | [a, b, c] =>
    (a == '2' && b == '5' && ('0' ≤ c && c ≤ '5'))
      || (a == '2' && ('0' ≤ b && b ≤ '4') && isDig c)
      || ((a == '0' || a == '1') && isDig b && isDig c)
  | _ => false

/-- The two-character fallbacks of `[01]?\d?\d` (both residual alternatives are `\d\d`). -/
def okt2 : List Char → Bool
  | [a, b] => isDig a && isDig b
  | _ => false

/-- The one-character fallback `\d` of `[01]?\d?\d`. -/
def okt1 : List Char → Bool
  | [a] => isDig a
  | _ => false

/-- All ways one octet of `IP_RE` can match a prefix of `cs`, in the pattern's
backtracking priority order (longest first, as the alternation and the greedy
optionals dictate). -/
def matchOct (cs : List Char) : List (List Char × List Char) :=
  (if okt3 (cs.take 3) then [(cs.take 3, cs.drop 3)] else [])
    ++ (if okt2 (cs.take 2) then [(cs.take 2, cs.drop 2)] else [])
    ++ (if okt1 (cs.take 1) then [(cs.take 1, cs.drop 1)] else [])

/-- The trailing `\b` of `IP_RE`: the character before it is a digit, so the
boundary holds iff the rest is empty or starts with a non-word character. -/
def boundaryAfter : List Char → Bool
  | [] => true
  | c :: _ => !isWordChar c

/-- First alternative (in priority order) on which the continuation succeeds —
the backtracking engine's choice. -/
def firstHit (f : List Char × List Char → Option (List Char × List Char)) :
    List (List Char × List Char) → Option (List Char × List Char)
  | [] => none
  | p :: ps =>
    match f p with
    | some q => some q
    | none => firstHit f ps

/-- Match `(?:octet\.){k}octet\b` at the start of `cs`, returning the matched
characters and the rest. `k = 3` is the full `IP_RE` body after its leading `\b`. -/
def matchQuadFrom : Nat → List Char → Option (List Char × List Char)
  | 0, cs =>
    firstHit (fun p => if boundaryAfter p.2 then some p else none) (matchOct cs)
  | k + 1, cs =>
    firstHit
      (fun p =>
        match p.2 with
        | '.' :: r2 =>
          match matchQuadFrom k r2 with
          | some q => some (p.1 ++ '.' :: q.1, q.2)
          | none => none
        | _ => none)
      (matchOct cs)

/-- `re.finditer(IP_RE, bytes)`: scan left to right; a match may start only at a
word boundary (the first matched character is a digit, so the boundary holds iff
the previous character — tracked by `prevW` — is not a word character); continue
after each match (non-overlapping). Fuel decreases at every step. -/
def ipScanF : Nat → Bool → List Char → List (List Char)
  | 0, _, _ => []
  | _ + 1, _, [] => []
  | fuel + 1, prevW, c :: rest =>
    if prevW then ipScanF fuel (isWordChar c) rest
    else
      match matchQuadFrom 3 (c :: rest) with
      | some (m, r) => m :: ipScanF fuel true r
      | none => ipScanF fuel (isWordChar c) rest

/-- All `IP_RE` matches in `cs`; at the start of input no word character precedes. -/
def ipScan (prevW : Bool) (cs : List Char) : List (List Char) := ipScanF cs.length prevW cs

/-- The IP hits of `dynamic_features`, as strings. -/
def scanIpsStr (s : String) : List String := (ipScan false s.toList).map strOfChars

/-- A character accepted by the `[^\s'"<>]` class of `URL_RE`
(Python's byte `\s` is space, tab, newline, carriage return, vertical tab, form feed). -/
def urlChar (c : Char) : Bool :=
  !(c == ' ' || c == '\t' || c == '\n' || c == '\r' || c == '\x0b' || c == '\x0c'
    || c == '\x27' || c == '"' || c == '<' || c == '>')

/-- Strip an exact prefix, returning the remainder. -/
def stripPre : List Char → List Char → Option (List Char)
  | [], cs => some cs
  | _ :: _, [] => none
  | p :: ps, c :: cs => if p == c then stripPre ps cs else none

/-- Match `URL_RE` at the start of `cs`: `https?://` (the greedy optional `s`
tried first; the two prefixes are mutually exclusive) followed by a non-empty
greedy run of `urlChar`s. -/
def matchUrlAt (cs : List Char) : Option (List Char × List Char) :=
  match stripPre ("https://".toList) cs with
  | some r =>
    let body := r.takeWhile urlChar
    if body.isEmpty then none else some ("https://".toList ++ body, r.drop body.length)
  | none =>
    match stripPre ("http://".toList) cs with
    | some r =>
      let body := r.takeWhile urlChar
      if body.isEmpty then none else some ("http://".toList ++ body, r.drop body.length)
    | none => none

/-- `re.finditer(URL_RE, bytes)`: leftmost, non-overlapping; fuel as for `ipScanF`. -/
def urlScanF : Nat → List Char → List (List Char)
  | 0, _ => []
  | _ + 1, [] => []
  | fuel + 1, c :: rest =>
    match matchUrlAt (c :: rest) with
    | some (m, r) => m :: urlScanF fuel r
    | none => urlScanF fuel rest

/-- All `URL_RE` matches in `cs`. -/
def urlScan (cs : List Char) : List (List Char) := urlScanF cs.length cs

/-! ## `analyzer.py`: signatures, suspicious-API matching, feature records -/

/-- The 9-entry suspicious-API needle table of `analyzer.py`. -/
def SUSPICIOUS_API_SUBSTRINGS : List String :=
  [ "java/lang/Runtime;->exec",
    "dalvik/system/DexClassLoader;-><init>",
    "java/lang/reflect/Method;->invoke",
    "android/telephony/SmsManager;->sendTextMessage",
    "javax/crypto/Cipher;->init",
    "java/net/HttpURLConnection;->connect",
    "okhttp3/OkHttpClient;->newCall",
    "org/apache/http/client/HttpClient;->execute",
    "java/net/URL;->openConnection" ]

/-- Outcome of the external `androguard.AnalyzeAPK` container parse: the raw data
a successfully parsed package exposes. `permissions` and receiver intent-filter
keys come from the manifest, `callTargets` is the list of
`"<calleeClass>-><calleeMethod>"` strings of the bytecode cross-reference index,
`rawBytes` is the raw package byte stream, `fileNames` the archive entry list.
Presentation-only metadata (package name, SDK versions, sizes) that no scoring
logic reads is not modelled. -/
structure ApkData where
  permissions : List String
  receivers : List String
  services : List String
  providers : List String
  intentKeys : List String
  callTargets : List String
  rawBytes : List Char
  fileNames : List String

/-- The needles of the table hit by some call target (the set built by the
`needle in called` scan loops; the table is duplicate-free, so this filtered list
is the deduplicated hit set, in table order). -/
def hitNeedles (targets : List String) : List String :=
  SUSPICIOUS_API_SUBSTRINGS.filter (fun needle => targets.any (fun called => substr needle called))

/-- `_match_suspicious_apis`: the sorted deduplicated hit set. -/
def matchSuspiciousApis (targets : List String) : List String := ssort (hitNeedles targets)

/-- The network-relatedness test of `dynamic_features`' classification loop:
the needle contains `"Http"`, `"URL;"`, `"OkHttp"`, or case-insensitively `"http"`. -/
def isNetNeedle (needle : String) : Bool :=
  substr "Http" needle || substr "URL;" needle || substr "OkHttp" needle
    || substr "http" (lowerStr needle)

/-- `net_hits` of `dynamic_features`: the hit needles classified network-related. -/
def net_hits (targets : List String) : List String :=
  (hitNeedles targets).filter isNetNeedle

/-- `sys_hits` of `dynamic_features`: the remaining (non-network) hit needles. -/
def sys_hits (targets : List String) : List String :=
  (hitNeedles targets).filter (fun n => !isNetNeedle n)

/-- The model's `StaticFeatureRecord` (result of `static_features`). -/
structure StaticFeats where
  permissions : List String
  receivers : List String
  services : List String
  providers : List String
  intents : List String
  suspicious_apis : List String
deriving DecidableEq

/-- `analyzer.static_features` (also exported as `extract_static_features`):
manifest fields plus the sorted deduplicated suspicious-API hits. It calls
`AnalyzeAPK` without a handler, so a parse failure propagates to the caller;
this function therefore takes parsed `ApkData`. -/
def static_features (a : ApkData) : StaticFeats :=
  { permissions := ssort a.permissions.dedup
    receivers := a.receivers
    services := a.services
    providers := a.providers
    intents := ssort a.intentKeys.dedup
    suspicious_apis := matchSuspiciousApis a.callTargets }

/-- The `behavior_summary` block of the dynamic feature record. -/
structure BehaviorSummary where
  n_network_calls : Nat
  n_system_indicators : Nat
  n_native_libs : Nat
deriving DecidableEq

/-- The model's `DynamicFeatureRecord` (success case of `dynamic_features`;
the constant `status` string and the echoed path are not modelled). -/
structure DynLogs where
  network_calls : List String
  network_ips : List String
  system_calls : List String
  native_libs : List String
  sms_used : Bool
  behavior_summary : BehaviorSummary
deriving DecidableEq

/-- What `dynamic_features` returns: either the dictionary
`{"error": "AnalyzeAPK failed: ..."}` (parse failure is caught, not re-raised)
or the full feature record. -/
inductive DynResult where
  | err (msg : String)
  | ok (logs : DynLogs)
deriving DecidableEq

/-- `dyn_logs.get("network_calls", [])`. -/
def DynResult.networkCalls : DynResult → List String
  | .err _ => []
  | .ok l => l.network_calls

/-- `dyn_logs.get("network_ips", [])`. -/
def DynResult.networkIps : DynResult → List String
  | .err _ => []
  | .ok l => l.network_ips

/-- `dyn_logs.get("system_calls", [])`. -/
def DynResult.systemCalls : DynResult → List String
  | .err _ => []
  | .ok l => l.system_calls

/-- `dyn_logs.get("sms_used", False)`. -/
def DynResult.smsUsed : DynResult → Bool
  | .err _ => false
  | .ok l => l.sms_used

/-- `dyn_logs.get("behavior_summary", {}).get("n_system_indicators", 0)`. -/
def DynResult.nSystemIndicators : DynResult → Nat
  | .err _ => 0
  | .ok l => l.behavior_summary.n_system_indicators

/-- `analyzer.dynamic_features` (also exported as `analyze_dynamic_features`).
A container-parse failure is caught and returned as an error record; otherwise
the byte scanners, the classified cross-reference hits, the native-library
inventory and the SMS flag are assembled. -/
def dynamic_features : Except String ApkData → DynResult
  | .error e => .err ("AnalyzeAPK failed: " ++ e)
  | .ok a =>
    let urls := ssort ((urlScan a.rawBytes).map strOfChars).dedup
    let ips := ssort ((ipScan false a.rawBytes).map strOfChars).dedup
    let nets := net_hits a.callTargets
    let syss := sys_hits a.callTargets
    let nativeLibs := (a.fileNames.filter (fun f => endsWithStr ".so" f)).map basename
    let smsUsed := ((nets ++ syss) ++ SUSPICIOUS_API_SUBSTRINGS).any (fun s => substr "SmsManager" s)
    .ok
      { network_calls := urls
        network_ips := ips
        system_calls := if syss = [] then ssort nets else ssort syss
        native_libs := nativeLibs
        sms_used := smsUsed
        behavior_summary :=
          { n_network_calls := urls.length
            n_system_indicators := if syss.length = 0 then nets.length else syss.length
            n_native_libs := nativeLibs.length } }

/-- `analyzer.determine_action`: the fixed verdict-to-action table
(case-insensitive on the verdict; the risk score is accepted but unused). -/
def determine_action (verdict : String) (risk_score : ℚ) : String :=
  let v := lowerStr verdict
  if v = "benign" then "Safe to use"
  else if v = "adware" then "Contains ads or trackers - use caution"
  else if v = "spyware" then "Spyware detected - avoid installation"
  else if v = "trojan" then "Trojan behaviour - uninstall or block immediately"
  else if v = "ransomware" then "Ransomware detected - do not install and isolate device"
  else "Unknown - manual review recommended"

/-- The `summary` block of `hybrid_features`. -/
structure HybridSummary where
  static_suspicious : Nat
  dynamic_network_indicators : Nat
  dynamic_sys_indicators : Nat
deriving DecidableEq

/-- The record returned by `analyzer.hybrid_features` (Policy A). -/
structure HybridFeats where
  static : StaticFeats
  dynamic : DynResult
  summary : HybridSummary
  verdict : String
  risk_score : ℚ
  recommended_action : String
deriving DecidableEq

/-- Policy A's 5-level bucket table as a function of `suspicious_count`. -/
def bucketA (suspicious_count : Nat) : ℚ × String :=
  if suspicious_count ≤ 2 then (0.1, "benign")
  else if suspicious_count ≤ 4 then (0.35, "adware")
  else if suspicious_count ≤ 6 then (0.55, "spyware")
  else if suspicious_count ≤ 9 then (0.75, "trojan")
  else (0.9, "ransomware")

/-- `analyzer.hybrid_features` (also exported as `analyze_hybrid_features`):
the combined static+dynamic summary path, Policy A. `suspicious_count` adds the
static suspicious-API count and the record's `n_system_indicators` (which itself
is `len(sys_hits) or len(net_hits)`), then the 5-level if-chain assigns
(risk_score, verdict). `static_features` would re-raise a parse failure, so the
function takes parsed `ApkData`. -/
def hybrid_features (a : ApkData) : HybridFeats :=
  let static := static_features a
  let dynamic := dynamic_features (.ok a)
  let suspicious_count := static.suspicious_apis.length + dynamic.nSystemIndicators
  let vr : ℚ × String :=
    if suspicious_count ≤ 2 then (0.1, "benign")
    else if suspicious_count ≤ 4 then (0.35, "adware")
    else if suspicious_count ≤ 6 then (0.55, "spyware")
    else if suspicious_count ≤ 9 then (0.75, "trojan")
    else (0.9, "ransomware")
  { static := static
    dynamic := dynamic
    summary :=
      { static_suspicious := static.suspicious_apis.length
        dynamic_network_indicators := dynamic.networkCalls.length
        dynamic_sys_indicators := dynamic.systemCalls.length }
    verdict := vr.2
    risk_score := vr.1
    recommended_action := determine_action vr.2 vr.1 }

/-! ## `main.py`: the three endpoints (Policy B and the classifier override) -/

/-- The dangerous-permission keyword list the static and hybrid endpoints match
by substring (`any(x in p for x in [...])` in `main.py`). -/
def dangerousKeywords : List String := ["SMS", "CALL", "INTERNET", "RECORD_AUDIO", "CAMERA"]

/-- The `n_dangerous_perms` count of `main.py`:
`sum(1 for p in permissions if any(x in p for x in dangerousKeywords))`. -/
def n_dangerous_perms_main (perms : List String) : Nat :=
  perms.countP (fun p => dangerousKeywords.any (fun x => substr x p))

/-- The 4-way verdict threshold chain shared verbatim by all three endpoints:
`<0.2 benign, <0.4 adware, <0.6 spyware, <0.8 trojan, else ransomware`. -/
def verdict4 (risk_score : ℚ) : String :=
  if risk_score < 0.2 then "benign"
  else if risk_score < 0.4 then "adware"
  else if risk_score < 0.6 then "spyware"
  else if risk_score < 0.8 then "trojan"
  else "ransomware"

/-- Response of `/analyze/static`. -/
structure StaticResponse where
  verdict : String
  risk_score : ℚ
  recommended_action : String
  features : StaticFeats
deriving DecidableEq

/-- `/analyze/static` (`analyze_static` in `main.py`), given the container-parse
outcome. A parse failure raises inside `extract_static_features` and surfaces as
the endpoint's single fatal error. -/
def analyze_static : Except String ApkData → Except String StaticResponse
  | .error e => .error ("Static analysis failed: " ++ e)
  | .ok a =>
    let feats := static_features a
    let n_dangerous_perms := n_dangerous_perms_main feats.permissions
    let n_suspicious_apis := feats.suspicious_apis.length
    let risk_score := pymin 1 (0.2 * (n_dangerous_perms : ℚ) + 0.15 * (n_suspicious_apis : ℚ))
    let verdict := verdict4 risk_score
    .ok
      { verdict := verdict
        risk_score := risk_score
        recommended_action := determine_action verdict risk_score
        features := feats }

/-- Response of `/analyze/dynamic`. -/
structure DynResponse where
  verdict : String
  risk_score : ℚ
  recommended_action : String
  logs : DynResult
deriving DecidableEq

/-- `/analyze/dynamic` (`analyze_dynamic` in `main.py`). `dynamic_features`
swallows a container-parse failure, so this endpoint never fails: counts read
from the error record default to zero and the SMS flag to false. -/
def analyze_dynamic (parse : Except String ApkData) : Except String DynResponse :=
  let dyn_logs := dynamic_features parse
  let n_network := dyn_logs.networkCalls.length
  let n_syscalls := dyn_logs.systemCalls.length
  let sms_used := dyn_logs.smsUsed
  let risk_score :=
    pymin 1 (0.2 * (n_network : ℚ) + 0.2 * (n_syscalls : ℚ) + (if sms_used then 0.3 else 0))
  let verdict := verdict4 risk_score
  .ok
    { verdict := verdict
      risk_score := risk_score
      recommended_action := determine_action verdict risk_score
      logs := dyn_logs }

/-- The 15-entry dangerous-permission catalog (`risk_model.DANGEROUS_PERMISSIONS`;
`ml_model.extract_vector` repeats the identical literal). Modelled as a
duplicate-free list of the Python set. -/
def DANGEROUS_PERMISSIONS : List String :=
  [ "android.permission.SEND_SMS",
    "android.permission.RECEIVE_SMS",
    "android.permission.READ_SMS",
    "android.permission.CALL_PHONE",
    "android.permission.READ_CONTACTS",
    "android.permission.WRITE_CONTACTS",
    "android.permission.READ_CALL_LOG",
    "android.permission.WRITE_CALL_LOG",
    "android.permission.RECEIVE_BOOT_COMPLETED",
    "android.permission.SYSTEM_ALERT_WINDOW",
    "android.permission.REQUEST_INSTALL_PACKAGES",
    "android.permission.WRITE_SETTINGS",
    "android.permission.READ_PHONE_STATE",
    "android.permission.RECORD_AUDIO",
    "android.permission.CAMERA" ]

/-- The 5-item suspicious-syscall catalog shared by `ml_model.extract_vector`
and `risk_model.dynamic_score`. -/
def SUSPICIOUS_SYSCALLS : List String := ["execve", "chmod", "chown", "ptrace", "kill"]

/-- `ml_model.extract_vector`: the fixed 5-dimensional classifier feature vector
[catalog dangerous-permission count, suspicious-API count, network-call count,
suspicious-syscall-hit count, boot-receiver-intent flag]. (Every modelled
network call is a string, so the `isinstance` filter keeps them all.) -/
def extract_vector (static_feats : StaticFeats) (dynamic_metrics : DynResult) : List ℚ :=
  let n_danger := interCount static_feats.permissions DANGEROUS_PERMISSIONS
  let n_api := static_feats.suspicious_apis.length
  let n_net := dynamic_metrics.networkCalls.length
  let n_sys := interCount dynamic_metrics.systemCalls SUSPICIOUS_SYSCALLS
  let has_boot : ℚ :=
    if static_feats.intents.any (fun s => substr "BOOT_COMPLETED" s) then 1 else 0
  [(n_danger : ℚ), (n_api : ℚ), (n_net : ℚ), (n_sys : ℚ), has_boot]

/-- Response of `/analyze/hybrid`. -/
structure HybridResponse where
  verdict : String
  risk_score : ℚ
  recommended_action : String
  style : String
  static_features : StaticFeats
  dynamic_logs : DynResult
deriving DecidableEq

/-- `/analyze/hybrid` (`analyze_hybrid` in `main.py`). The optional process-wide
classifier is an abstract positive-class-probability function of the feature
vector. With a classifier loaded, its probability replaces the heuristic score;
either way the shared 4-way thresholds classify the final score. A container
parse failure raises inside `extract_static_features` and is fatal. -/
def analyze_hybrid (model : Option (List ℚ → ℚ)) :
    Except String ApkData → Except String HybridResponse
  | .error e => .error ("Hybrid analysis failed: " ++ e)
  | .ok a =>
    let feats := static_features a
    let dyn_logs := dynamic_features (.ok a)
    let n_suspicious_apis := feats.suspicious_apis.length
    let n_dangerous_perms := n_dangerous_perms_main feats.permissions
    let n_network := dyn_logs.networkCalls.length
    let n_syscalls := dyn_logs.systemCalls.length
    let sms_used := dyn_logs.smsUsed
    let heuristic_score :=
      pymin 1 (0.15 * (n_dangerous_perms : ℚ) + 0.15 * (n_suspicious_apis : ℚ)
        + 0.2 * (n_network : ℚ) + 0.2 * (n_syscalls : ℚ) + (if sms_used then 0.2 else 0))
    let risk_score :=
      match model with
      | some m => m (extract_vector feats dyn_logs)
      | none => heuristic_score
    let verdict := verdict4 risk_score
    .ok
      { verdict := verdict
        risk_score := risk_score
        recommended_action := determine_action verdict risk_score
        style := if verdict = "benign" then "#4CAF50" else "#F44336"
        static_features := feats
        dynamic_logs := dyn_logs }

/-! ## `risk_model.py`: Policy C (normalized weights, 3-level verdicts) -/

/-- The 5-entry suspicious-API signature list of `risk_model.py`. -/
def SUSPICIOUS_APIS : List String :=
  [ "java/lang/Runtime;->exec",
    "dalvik/system/DexClassLoader;-><init>",
    "java/lang/reflect/Method;->invoke",
    "android/telephony/SmsManager;->sendTextMessage",
    "javax/crypto/Cipher;->init" ]

/-- `risk_model.NETWORK_INDICATORS`. -/
def NETWORK_INDICATORS : List String := ["http://", "https://", "ftp://"]

/-- The feature dictionary consumed by `risk_model`'s scorers (only the fields
they read). -/
structure RMFeats where
  permissions : List String
  intents : List String
  suspicious_apis : List String
deriving DecidableEq

/-- The dynamic-log dictionary consumed by `risk_model.dynamic_score`. -/
structure RMLogs where
  network_calls : List String
  system_calls : List String
deriving DecidableEq

/-- `risk_model.static_score` (risk and verdict; the formatted explanation
string is not modelled): `0.5 * |perms ∩ catalog| / max(1,15)
+ 0.3 * |set(apis)| / max(1,5) + 0.2 * boot`, clamped to [0,1], with
thresholds `>= 0.70` malicious / `>= 0.40` suspicious / else benign. -/
def static_score (features : RMFeats) : ℚ × String :=
  let n_danger := interCount features.permissions DANGEROUS_PERMISSIONS
  let perm_score : ℚ := (n_danger : ℚ) / ((max 1 DANGEROUS_PERMISSIONS.length : Nat) : ℚ)
  let api_score : ℚ :=
    (features.suspicious_apis.dedup.length : ℚ) / ((max 1 SUSPICIOUS_APIS.length : Nat) : ℚ)
  let intent_score : ℚ :=
    if features.intents.any (fun s => substr "BOOT_COMPLETED" s) then 1 else 0
  let risk := pymax 0 (pymin 1 (0.5 * perm_score + 0.3 * api_score + 0.2 * intent_score))
  (risk, if risk ≥ 0.70 then "malicious" else if risk ≥ 0.40 then "suspicious" else "benign")

/-- `risk_model.dynamic_score`: `0.6 * min(1, sys_hits/3) + 0.4 * min(1, net_hits/5)`,
clamped, with thresholds `>= 0.65` / `>= 0.35`. -/
def dynamic_score (logs : RMLogs) : ℚ × String :=
  let n_net_hits := logs.network_calls.countP (fun n => NETWORK_INDICATORS.any (fun ind => substr ind n))
  let n_sys_hits := interCount logs.system_calls SUSPICIOUS_SYSCALLS
  let net_score := pymin 1 ((n_net_hits : ℚ) / 5)
  let sys_score := pymin 1 ((n_sys_hits : ℚ) / 3)
  let risk := pymax 0 (pymin 1 (0.6 * sys_score + 0.4 * net_score))
  (risk, if risk ≥ 0.65 then "malicious" else if risk ≥ 0.35 then "suspicious" else "benign")

/-- `risk_model.hybrid_score`: the mean of the static and dynamic sub-scores when
logs are supplied (Python truthiness of the `logs` argument), else the static
sub-score alone; classified with the static threshold pair. -/
def hybrid_score (features : RMFeats) (logs : Option RMLogs) : ℚ × String :=
  let sr := (static_score features).1
  let risk :=
    match logs with
    | some lg => (sr + (dynamic_score lg).1) / 2
    | none => sr
  (risk, if risk ≥ 0.70 then "malicious" else if risk ≥ 0.40 then "suspicious" else "benign")

/-! ## Properties of the IP scanner -/

/-- A valid octet string: non-empty, at most three digits, numeric value at most 255. -/
def ValidOct (m : List Char) : Prop :=
  m ≠ [] ∧ m.length ≤ 3 ∧ m.all isDig = true ∧ octVal m ≤ 255

/-- `DottedOcts k m`: `m` consists of `k + 1` valid octets separated by dots. -/
def DottedOcts : Nat → List Char → Prop
  | 0, m => ValidOct m
  | k + 1, m => ∃ o rest, ValidOct o ∧ m = o ++ '.' :: rest ∧ DottedOcts k rest

theorem firstHit_sound {f : List Char × List Char → Option (List Char × List Char)}
    {l : List (List Char × List Char)} {q : List Char × List Char}
    (h : firstHit f l = some q) : ∃ p ∈ l, f p = some q := by
  induction l with
  | nil => simp [firstHit] at h
  | cons p ps ih =>
    rw [firstHit] at h
    cases hf : f p with
    | some q' =>
      rw [hf] at h
      simp only [] at h
      exact ⟨p, List.mem_cons_self .., by rw [hf, h]⟩
    | none =>
      rw [hf] at h
      simp only [] at h
      obtain ⟨p', hp', hf'⟩ := ih h
      exact ⟨p', List.mem_cons_of_mem _ hp', hf'⟩

theorem char_toNat_le {c d : Char} (h : c ≤ d) : c.toNat ≤ d.toNat := h

theorem char_le_of_toNat {c d : Char} (h : c.toNat ≤ d.toNat) : c ≤ d := h

theorem isDig_nat {c : Char} (h : isDig c = true) : 48 ≤ c.toNat ∧ c.toNat ≤ 57 := by
  simp only [isDig, Bool.and_eq_true, decide_eq_true_eq] at h
  exact ⟨char_toNat_le h.1, char_toNat_le h.2⟩

theorem isDig_of_nat {c : Char} (h1 : 48 ≤ c.toNat) (h2 : c.toNat ≤ 57) : isDig c = true := by
  simp only [isDig, Bool.and_eq_true, decide_eq_true_eq]
  exact ⟨char_le_of_toNat h1, char_le_of_toNat h2⟩

theorem okt3_valid {m : List Char} (h : okt3 m = true) : ValidOct m := by
  rcases m with _ | ⟨a, _ | ⟨b, _ | ⟨c, _ | ⟨d, rest⟩⟩⟩⟩
  · simp [okt3] at h
  · simp [okt3] at h
  · simp [okt3] at h
  case cons.cons.cons.nil =>
    rw [okt3] at h
    simp only [Bool.or_eq_true, Bool.and_eq_true, decide_eq_true_eq, beq_iff_eq] at h
    have e0 : ('0' : Char).toNat = 48 := by decide
    have e1 : ('1' : Char).toNat = 49 := by decide
    have e2 : ('2' : Char).toNat = 50 := by decide
    have e4 : ('4' : Char).toNat = 52 := by decide
    have e5 : ('5' : Char).toNat = 53 := by decide
    have hd : 48 ≤ a.toNat ∧ a.toNat ≤ 57 ∧ 48 ≤ b.toNat ∧ b.toNat ≤ 57 ∧
        48 ≤ c.toNat ∧ c.toNat ≤ 57 ∧
        100 * (a.toNat - 48) + 10 * (b.toNat - 48) + (c.toNat - 48) ≤ 255 := by
      rcases h with (⟨⟨ha, hb⟩, hc1, hc2⟩ | ⟨⟨ha, hb1, hb2⟩, hc⟩) | ⟨⟨ha | ha, hb⟩, hc⟩
      · subst ha; subst hb
        have u1 := char_toNat_le hc1
        have u2 := char_toNat_le hc2
        omega
      · subst ha
        have u1 := char_toNat_le hb1
        have u2 := char_toNat_le hb2
        have u3 := isDig_nat hc
        omega
      · have u1 := isDig_nat hb
        have u2 := isDig_nat hc
        subst ha; omega
      · have u1 := isDig_nat hb
        have u2 := isDig_nat hc
        subst ha; omega
    obtain ⟨h1, h2, h3, h4, h5, h6, h7⟩ := hd
    refine ⟨by simp, by simp, ?_, ?_⟩
    · simp only [List.all_cons, List.all_nil, Bool.and_eq_true]
      exact ⟨isDig_of_nat h1 h2, isDig_of_nat h3 h4, isDig_of_nat h5 h6, trivial⟩
    · simp only [octVal, List.foldl]
      omega
  · simp [okt3] at h

theorem okt2_valid {m : List Char} (h : okt2 m = true) : ValidOct m := by
  rcases m with _ | ⟨a, _ | ⟨b, _ | ⟨c, rest⟩⟩⟩
  · simp [okt2] at h
  · simp [okt2] at h
  case cons.cons.nil =>
    rw [okt2] at h
    simp only [Bool.and_eq_true] at h
    have u1 := isDig_nat h.1
    have u2 := isDig_nat h.2
    refine ⟨by simp, by simp, ?_, ?_⟩
    · simp only [List.all_cons, List.all_nil, Bool.and_eq_true]
      exact ⟨h.1, h.2, trivial⟩
    · simp only [octVal, List.foldl]
      omega
  · simp [okt2] at h

theorem okt1_valid {m : List Char} (h : okt1 m = true) : ValidOct m := by
  rcases m with _ | ⟨a, _ | ⟨b, rest⟩⟩
  · simp [okt1] at h
  case cons.nil =>
    rw [okt1] at h
    have u1 := isDig_nat h
    refine ⟨by simp, by simp, ?_, ?_⟩
    · simp only [List.all_cons, List.all_nil, Bool.and_eq_true]
      exact ⟨h, trivial⟩
    · simp only [octVal, List.foldl]
      omega
  · simp [okt1] at h

theorem matchOct_sound {cs : List Char} {p : List Char × List Char} (h : p ∈ matchOct cs) :
    cs = p.1 ++ p.2 ∧ ValidOct p.1 := by
  unfold matchOct at h
  have htd : ∀ k : Nat, p = (cs.take k, cs.drop k) → cs = p.1 ++ p.2 := by
    intro k hp
    rw [hp]
    exact (List.take_append_drop k cs).symm
  rcases List.mem_append.1 h with h' | h'
  · rcases List.mem_append.1 h' with h'' | h''
    · by_cases hc : okt3 (cs.take 3) = true
      · rw [if_pos hc] at h''
        rcases List.mem_singleton.1 h'' with rfl
        exact ⟨htd 3 rfl, okt3_valid hc⟩
      · rw [if_neg hc] at h''
        exact absurd h'' (List.not_mem_nil _)
    · by_cases hc : okt2 (cs.take 2) = true
      · rw [if_pos hc] at h''
        rcases List.mem_singleton.1 h'' with rfl
        exact ⟨htd 2 rfl, okt2_valid hc⟩
      · rw [if_neg hc] at h''
        exact absurd h'' (List.not_mem_nil _)
  · by_cases hc : okt1 (cs.take 1) = true
    · rw [if_pos hc] at h'
      rcases List.mem_singleton.1 h' with rfl
      exact ⟨htd 1 rfl, okt1_valid hc⟩
    · rw [if_neg hc] at h'
      exact absurd h' (List.not_mem_nil _)

theorem matchQuadFrom_sound :
    ∀ (k : Nat) (cs m r : List Char), matchQuadFrom k cs = some (m, r) →
      cs = m ++ r ∧ DottedOcts k m := by
  intro k
  induction k with
  | zero =>
    intro cs m r h
    simp only [matchQuadFrom] at h
    obtain ⟨p, hp, hf⟩ := firstHit_sound h
    obtain ⟨hcs, hv⟩ := matchOct_sound hp
    by_cases hb : boundaryAfter p.2 = true
    · rw [if_pos hb] at hf
      cases hf
      exact ⟨hcs, hv⟩
    · rw [if_neg hb] at hf
      simp at hf
  | succ k ih =>
    intro cs m r h
    simp only [matchQuadFrom] at h
    obtain ⟨p, hp, hf⟩ := firstHit_sound h
    obtain ⟨hcs, hv⟩ := matchOct_sound hp
    split at hf
    next r2 heq =>
      split at hf
      next q hq =>
        obtain ⟨m2, r3⟩ := q
        injection hf with hf2
        cases hf2
        obtain ⟨hcs2, hd2⟩ := ih r2 m2 r3 hq
        constructor
        · rw [hcs, heq, hcs2]
          simp
        · exact ⟨p.1, m2, hv, rfl, hd2⟩
      next => simp at hf
    next => simp at hf

theorem DottedOcts_ne_nil {k : Nat} {m : List Char} (h : DottedOcts k m) : m ≠ [] := by
  cases k with
  | zero => exact h.1
  | succ k =>
    obtain ⟨o, rest, hv, hm, _⟩ := h
    rw [hm]
    rcases o with _ | ⟨x, xs⟩
    · exact absurd rfl hv.1
    · simp

theorem matchQuadFrom_shrink {cs m r : List Char} (h : matchQuadFrom 3 cs = some (m, r)) :
    r.length < cs.length := by
  obtain ⟨hcs, hd⟩ := matchQuadFrom_sound 3 cs m r h
  have hne := DottedOcts_ne_nil hd
  rw [hcs, List.length_append]
  rcases m with _ | ⟨x, xs⟩
  · exact absurd rfl hne
  · simp only [List.length_cons]
    omega

theorem ipScanF_sound :
    ∀ (fuel : Nat) (prevW : Bool) (cs m : List Char), m ∈ ipScanF fuel prevW cs →
      DottedOcts 3 m := by
  intro fuel
  induction fuel with
  | zero => intro prevW cs m hm; simp [ipScanF] at hm
  | succ fuel ih =>
    intro prevW cs m hm
    rcases cs with _ | ⟨c, rest⟩
    · simp [ipScanF] at hm
    · rw [ipScanF] at hm
      by_cases hw : prevW = true
      · rw [if_pos hw] at hm
        exact ih _ _ _ hm
      · rw [if_neg hw] at hm
        rcases hq : matchQuadFrom 3 (c :: rest) with _ | ⟨⟨mm, r⟩⟩
        · rw [hq] at hm
          exact ih _ _ _ hm
        · rw [hq] at hm
          rcases List.mem_cons.1 hm with rfl | hm'
          · exact (matchQuadFrom_sound 3 (c :: rest) m r hq).2
          · exact ih _ _ _ hm'

theorem ipScan_sound {prevW : Bool} {cs m : List Char} (h : m ∈ ipScan prevW cs) :
    DottedOcts 3 m := ipScanF_sound cs.length prevW cs m h

theorem ipScanF_fuel_irrel :
    ∀ (fuel fuel' : Nat) (prevW : Bool) (cs : List Char),
      cs.length ≤ fuel → cs.length ≤ fuel' → ipScanF fuel prevW cs = ipScanF fuel' prevW cs := by
  intro fuel
  induction fuel with
  | zero =>
    intro fuel' prevW cs h h'
    rcases cs with _ | ⟨c, rest⟩
    · cases fuel' <;> simp [ipScanF]
    · simp at h
  | succ fuel ih =>
    intro fuel' prevW cs h h'
    rcases cs with _ | ⟨c, rest⟩
    · cases fuel' <;> simp [ipScanF]
    · rcases fuel' with _ | fuel'
      · simp at h'
      · rw [ipScanF, ipScanF]
        simp only [List.length_cons, Nat.add_le_add_iff_right] at h h'
        by_cases hw : prevW = true
        · rw [if_pos hw, if_pos hw]
          exact ih fuel' _ _ h h'
        · rw [if_neg hw, if_neg hw]
          rcases hq : matchQuadFrom 3 (c :: rest) with _ | ⟨⟨mm, r⟩⟩
          · exact ih fuel' _ _ h h'
          · have hs := matchQuadFrom_shrink hq
            simp only [List.length_cons] at hs
            simp only []
            rw [ih fuel' true r (by omega) (by omega)]

/-! ## Shared helper lemmas and fixtures for the claim theorems -/

/-- A package with nothing in it: parses fine, exposes no features. -/
def apkEmpty : ApkData :=
  { permissions := [], receivers := [], services := [], providers := [],
    intentKeys := [], callTargets := [], rawBytes := [], fileNames := [] }

/-- Policy A's record fields are exactly `bucketA` of its suspicious count. -/
theorem hybrid_features_eq_bucketA (a : ApkData) :
    ((hybrid_features a).risk_score, (hybrid_features a).verdict) =
      bucketA ((static_features a).suspicious_apis.length +
        (dynamic_features (Except.ok a)).nSystemIndicators) := rfl

/-- Every Policy A bucket is one of the five fixed (score, verdict) pairs. -/
theorem bucketA_mem (n : Nat) :
    bucketA n ∈ ([(0.1, "benign"), (0.35, "adware"), (0.55, "spyware"),
      (0.75, "trojan"), (0.9, "ransomware")] : List (ℚ × String)) := by
  unfold bucketA
  split_ifs <;> simp

/-- `min(1.0, x)` of a non-negative `x` lies in `[0, 1]`. -/
theorem pymin1_bounds {x : ℚ} (hx : 0 ≤ x) : 0 ≤ pymin 1 x ∧ pymin 1 x ≤ 1 := by
  rw [pymin_eq_min]
  exact ⟨le_min (by norm_num) hx, min_le_left 1 x⟩

/-- `max(0.0, min(1.0, x))` lies in `[0, 1]` for every `x`. -/
theorem clamp01_bounds (x : ℚ) : 0 ≤ pymax 0 (pymin 1 x) ∧ pymax 0 (pymin 1 x) ≤ 1 := by
  rw [pymax_eq_max, pymin_eq_min]
  exact ⟨le_max_left 0 _, max_le (by norm_num) (min_le_left 1 x)⟩

/-- The 3-level threshold table of `risk_model.py` as a function of the score. -/
def verdictC (hi lo risk : ℚ) : String :=
  if risk ≥ hi then "malicious" else if risk ≥ lo then "suspicious" else "benign"

/-- Severity order of the 3-level verdict vocabulary. -/
def verdictRank3 (v : String) : Nat :=
  if v = "benign" then 0 else if v = "suspicious" then 1 else 2

/-- Severity order of the 5-level verdict vocabulary. -/
def verdictRank4 (v : String) : Nat :=
  if v = "benign" then 0 else if v = "adware" then 1 else if v = "spyware" then 2
  else if v = "trojan" then 3 else 4

theorem verdict4_mono {x y : ℚ} (h : x ≤ y) :
    verdictRank4 (verdict4 x) ≤ verdictRank4 (verdict4 y) := by
  unfold verdict4
  split_ifs <;> first | decide | (exfalso; linarith)

theorem verdictC_mono {hi lo x y : ℚ} (hxy : x ≤ y) :
    verdictRank3 (verdictC hi lo x) ≤ verdictRank3 (verdictC hi lo y) := by
  unfold verdictC
  split_ifs <;> first | decide | (exfalso; linarith)

/-! ## Claim C6 -/

/-- Claim C6 (confirmed): Policy C's static scorer computes
`risk = clamp01(0.5 * danger_hits / 15 + 0.3 * api_hits / 5 + 0.2 * boot)` with the
15-entry catalog and the 5-entry signature list, assigns `malicious` at `risk >= 0.70`,
`suspicious` at `risk >= 0.40`, else `benign`; and a record with zero
dangerous-permission hits, zero suspicious-API hits and no boot intent scores 0.0
with verdict `benign`. -/
theorem C6_static_score :
    (∀ f : RMFeats,
      (static_score f).1 =
        pymax 0 (pymin 1
          (0.5 * ((interCount f.permissions DANGEROUS_PERMISSIONS : ℚ) / 15)
            + 0.3 * ((f.suspicious_apis.dedup.length : ℚ) / 5)
            + 0.2 * (if f.intents.any (fun s => substr "BOOT_COMPLETED" s) then (1 : ℚ) else 0)))
      ∧ (static_score f).2 = verdictC 0.70 0.40 (static_score f).1)
    ∧ DANGEROUS_PERMISSIONS.length = 15
    ∧ SUSPICIOUS_APIS.length = 5
    ∧ (∀ f : RMFeats,
        interCount f.permissions DANGEROUS_PERMISSIONS = 0 →
        f.suspicious_apis.dedup.length = 0 →
        f.intents.any (fun s => substr "BOOT_COMPLETED" s) = false →
        static_score f = (0, "benign")) := by
  have hd15 : DANGEROUS_PERMISSIONS.length = 15 := rfl
  have hs5 : SUSPICIOUS_APIS.length = 5 := rfl
  refine ⟨fun f => ⟨?_, rfl⟩, by decide, by decide, fun f h1 h2 h3 => ?_⟩
  · simp only [static_score, hd15, hs5]
    norm_num
  · simp only [static_score, h1, h2, h3]
    norm_num [pymin, pymax, verdictC]

/-- Witness for C6: the empty feature record has zero hits everywhere and is
scored (0, benign). -/
theorem C6_static_score_witness :
    static_score { permissions := [], intents := [], suspicious_apis := [] } = (0, "benign") :=
  C6_static_score.2.2.2 { permissions := [], intents := [], suspicious_apis := [] }
    (by decide) (by decide) (by decide)

/-! ## Claim C7 -/

/-- Claim C7 (confirmed): Policy C's hybrid scorer averages the static and dynamic
sub-scores when logs are supplied and falls back to the static sub-score alone when
they are not, classifying with the static threshold pair (0.70/0.40), while the
dynamic-only scorer uses the pair 0.65/0.35. -/
theorem C7_hybrid_score :
    ∀ (f : RMFeats) (lg : RMLogs),
      hybrid_score f (some lg) =
        (((static_score f).1 + (dynamic_score lg).1) / 2,
          verdictC 0.70 0.40 (((static_score f).1 + (dynamic_score lg).1) / 2))
      ∧ hybrid_score f none = ((static_score f).1, verdictC 0.70 0.40 (static_score f).1)
      ∧ (dynamic_score lg).2 = verdictC 0.65 0.35 (dynamic_score lg).1 :=
  fun _ _ => ⟨rfl, rfl, rfl⟩

/-! ## Claim C5 -/

/-- Claim C5 (confirmed): with a classifier loaded, the hybrid endpoint submits the
fixed 5-dimensional vector [catalog dangerous-permission count, suspicious-API
count, network-call count, suspicious-syscall-hit count, boot-intent flag] to it,
adopts the returned positive-class probability (not the heuristic score) as
`risk_score`, and classifies it with Policy B's 4-way thresholds. -/
theorem C5_classifier_override :
    ∀ (prob : List ℚ → ℚ) (a : ApkData), ∃ resp : HybridResponse,
      analyze_hybrid (some prob) (Except.ok a) = Except.ok resp
      ∧ resp.risk_score =
          prob (extract_vector (static_features a) (dynamic_features (Except.ok a)))
      ∧ resp.verdict = verdict4 resp.risk_score
      ∧ extract_vector (static_features a) (dynamic_features (Except.ok a)) =
          [ (interCount (static_features a).permissions DANGEROUS_PERMISSIONS : ℚ),
            ((static_features a).suspicious_apis.length : ℚ),
            ((dynamic_features (Except.ok a)).networkCalls.length : ℚ),
            (interCount (dynamic_features (Except.ok a)).systemCalls SUSPICIOUS_SYSCALLS : ℚ),
            (if (static_features a).intents.any (fun s => substr "BOOT_COMPLETED" s)
              then (1 : ℚ) else 0) ]
      ∧ DANGEROUS_PERMISSIONS.length = 15
      ∧ SUSPICIOUS_SYSCALLS.length = 5 :=
  fun prob a => ⟨_, rfl, rfl, rfl, rfl, by decide, by decide⟩

/-! ## Claim C3 -/

/-- A package whose bytecode call targets hit exactly the three network-related
needles `HttpURLConnection;->connect`, `OkHttpClient;->newCall` and
`URL;->openConnection` (and no system-related needle). -/
def apkNetOnly : ApkData :=
  { permissions := [], receivers := [], services := [], providers := [],
    intentKeys := [],
    callTargets :=
      [ "java/net/HttpURLConnection;->connect",
        "okhttp3/OkHttpClient;->newCall",
        "java/net/URL;->openConnection" ],
    rawBytes := [], fileNames := [] }

/-- Counterexample to C3: on a package with three static suspicious-API hits and
zero system-related hits, Policy A scores (0.55, spyware), while the claim's
formula `|static.suspicious_apis| + |sys_hits|` gives 3, whose bucket is
(0.35, adware) — because `n_system_indicators` falls back to the network-hit
count when the system-hit set is empty. -/
theorem C3_counterexample :
    (static_features apkNetOnly).suspicious_apis.length = 3
    ∧ sys_hits apkNetOnly.callTargets = []
    ∧ bucketA ((static_features apkNetOnly).suspicious_apis.length
        + (sys_hits apkNetOnly.callTargets).length) = (0.35, "adware")
    ∧ (hybrid_features apkNetOnly).risk_score = 0.55
    ∧ (hybrid_features apkNetOnly).verdict = "spyware" := by
  have h3 : (static_features apkNetOnly).suspicious_apis.length = 3 := by decide
  have hsys : sys_hits apkNetOnly.callTargets = [] := by decide
  have htotal : (static_features apkNetOnly).suspicious_apis.length
      + (dynamic_features (Except.ok apkNetOnly)).nSystemIndicators = 6 := by decide
  have hpair := hybrid_features_eq_bucketA apkNetOnly
  rw [htotal] at hpair
  have hfst := congrArg Prod.fst hpair
  have hsnd := congrArg Prod.snd hpair
  refine ⟨h3, hsys, ?_, ?_, ?_⟩
  · rw [h3, hsys]
    norm_num [bucketA]
  · have hfst' : (hybrid_features apkNetOnly).risk_score = (bucketA 6).1 := hfst
    rw [hfst']
    norm_num [bucketA]
  · have hsnd' : (hybrid_features apkNetOnly).verdict = (bucketA 6).2 := hsnd
    rw [hsnd']
    norm_num [bucketA]

/-- Claim C3 as amended: Policy A's `suspicious_count` adds the static
suspicious-API count and `len(sys_hits) or len(net_hits)` — the system-related
hit count with a fallback to the network-related hit count when there are no
system hits — and maps it by the inclusive bucket bounds ≤2 → benign/0.10,
≤4 → adware/0.35, ≤6 → spyware/0.55, ≤9 → trojan/0.75, else ransomware/0.90;
in particular count 0 → benign/0.10, 5 → spyware/0.55, 10 → ransomware/0.90. -/
theorem C3_amended :
    (∀ a : ApkData,
      ((hybrid_features a).risk_score, (hybrid_features a).verdict) =
        bucketA ((static_features a).suspicious_apis.length +
          (if (sys_hits a.callTargets).length = 0 then (net_hits a.callTargets).length
           else (sys_hits a.callTargets).length)))
    ∧ bucketA 0 = (0.1, "benign") ∧ bucketA 2 = (0.1, "benign")
    ∧ bucketA 3 = (0.35, "adware") ∧ bucketA 4 = (0.35, "adware")
    ∧ bucketA 5 = (0.55, "spyware") ∧ bucketA 6 = (0.55, "spyware")
    ∧ bucketA 7 = (0.75, "trojan") ∧ bucketA 9 = (0.75, "trojan")
    ∧ bucketA 10 = (0.9, "ransomware") := by
  refine ⟨fun a => hybrid_features_eq_bucketA a, ?_, ?_, ?_, ?_, ?_, ?_, ?_, ?_, ?_⟩
  all_goals norm_num [bucketA]

/-! ## Claim C4 -/

/-- A package hitting exactly one needle, the network-related
`HttpURLConnection;->connect`. -/
def apkHttpOnly : ApkData :=
  { permissions := [], receivers := [], services := [], providers := [],
    intentKeys := [], callTargets := ["java/net/HttpURLConnection;->connect"],
    rawBytes := [], fileNames := [] }

/-- Counterexample to C4: when the system-related hit set is empty, the reported
`system_calls` field of the dynamic feature record holds the network-related hits,
so it does contain a network-related needle. -/
theorem C4_counterexample :
    (dynamic_features (Except.ok apkHttpOnly)).systemCalls =
      ["java/net/HttpURLConnection;->connect"]
    ∧ isNetNeedle "java/net/HttpURLConnection;->connect" = true := by
  exact ⟨by decide, by decide⟩

/-- Claim C4 as amended: the classification inside `dynamic_features` does
partition the matched hit set into disjoint network-related and system-related
subsets covering it exactly (network-related iff the needle contains `Http`,
`URL;`, `OkHttp`, or case-insensitive `http`); but the record's reported
`system_calls` field is the sorted system subset only when that subset is
non-empty, and otherwise falls back to the sorted network subset, so the reported
field may contain network-related needles. -/
theorem C4_amended :
    ∀ ts : List String,
      (net_hits ts).all isNetNeedle = true
      ∧ (sys_hits ts).all (fun n => !isNetNeedle n) = true
      ∧ (net_hits ts ++ sys_hits ts).Perm (hitNeedles ts)
      ∧ net_hits ts ∩ sys_hits ts = []
      ∧ (∀ a : ApkData,
          (dynamic_features (Except.ok a)).systemCalls =
            (if sys_hits a.callTargets = [] then ssort (net_hits a.callTargets)
             else ssort (sys_hits a.callTargets))) := by
  intro ts
  refine ⟨?_, ?_, List.filter_append_perm _ _, ?_, fun a => rfl⟩
  · rw [List.all_eq_true]
    intro n hn
    exact (List.mem_filter.1 hn).2
  · rw [List.all_eq_true]
    intro n hn
    exact (List.mem_filter.1 hn).2
  · rw [List.eq_nil_iff_forall_not_mem]
    intro x hx
    rw [List.mem_inter_iff] at hx
    have h1 := (List.mem_filter.1 hx.1).2
    have h2 := (List.mem_filter.1 hx.2).2
    rw [h1] at h2
    simp at h2

/-! ## Claim C2 -/

/-- A package declaring only `READ_CONTACTS` — a catalog permission containing
none of the endpoint's five keywords. -/
def apkContacts : ApkData :=
  { permissions := ["android.permission.READ_CONTACTS"], receivers := [], services := [],
    providers := [], intentKeys := [], callTargets := [], rawBytes := [], fileNames := [] }

/-- Counterexample to C2: the static endpoint counts permissions by keyword
substring, not by catalog intersection. `READ_CONTACTS` is in the 15-entry
catalog (intersection size 1, claimed score 0.20) but contains no keyword, so
the endpoint counts 0 and scores 0. -/
theorem C2_counterexample :
    n_dangerous_perms_main (static_features apkContacts).permissions = 0
    ∧ interCount (static_features apkContacts).permissions DANGEROUS_PERMISSIONS = 1
    ∧ (∃ resp : StaticResponse,
        analyze_static (Except.ok apkContacts) = Except.ok resp ∧ resp.risk_score = 0)
    ∧ (0.20 * (interCount (static_features apkContacts).permissions DANGEROUS_PERMISSIONS : ℚ)
        + 0.15 * ((static_features apkContacts).suspicious_apis.length : ℚ)) = 0.2 := by
  have h0 : n_dangerous_perms_main (static_features apkContacts).permissions = 0 := by decide
  have h1 : interCount (static_features apkContacts).permissions DANGEROUS_PERMISSIONS = 1 := by
    decide
  have ha : (static_features apkContacts).suspicious_apis.length = 0 := by decide
  refine ⟨h0, h1, ⟨_, rfl, ?_⟩, ?_⟩
  · show pymin 1 (0.2 * (n_dangerous_perms_main (static_features apkContacts).permissions : ℚ)
      + 0.15 * ((static_features apkContacts).suspicious_apis.length : ℚ)) = 0
    rw [h0, ha]
    norm_num [pymin]
  · rw [h1, ha]
    norm_num

/-- Claim C2 as amended: the dangerous-permission count used by the static
endpoint's score `min(1, 0.20 * n_dangerous + 0.15 * n_apis)` is the number of
extracted permissions containing one of the five substrings `SMS`, `CALL`,
`INTERNET`, `RECORD_AUDIO`, `CAMERA` — not the intersection with the 15-entry
catalog. -/
theorem C2_amended :
    ∀ a : ApkData, ∃ resp : StaticResponse,
      analyze_static (Except.ok a) = Except.ok resp
      ∧ resp.risk_score =
          pymin 1 (0.2 * ((static_features a).permissions.countP
              (fun p => substr "SMS" p || substr "CALL" p || substr "INTERNET" p
                || substr "RECORD_AUDIO" p || substr "CAMERA" p) : ℚ)
            + 0.15 * ((static_features a).suspicious_apis.length : ℚ))
      ∧ resp.verdict = verdict4 resp.risk_score := by
  intro a
  have hc : ∀ p : String,
      (dangerousKeywords.any (fun x => substr x p)) =
        (substr "SMS" p || substr "CALL" p || substr "INTERNET" p
          || substr "RECORD_AUDIO" p || substr "CAMERA" p) := by
    intro p
    simp [dangerousKeywords, Bool.or_assoc]
  have hcount : n_dangerous_perms_main (static_features a).permissions =
      (static_features a).permissions.countP
        (fun p => substr "SMS" p || substr "CALL" p || substr "INTERNET" p
          || substr "RECORD_AUDIO" p || substr "CAMERA" p) := by
    unfold n_dangerous_perms_main
    exact List.countP_congr (fun p _ => by rw [hc p])
  exact ⟨_, rfl, by rw [← hcount], rfl⟩

/-! ## Claim C1 -/

/-- What the dynamic endpoint returns when the container parse fails. -/
theorem analyze_dynamic_on_error (e : String) :
    analyze_dynamic (Except.error e) =
      Except.ok
        { verdict := "benign", risk_score := 0, recommended_action := "Safe to use",
          logs := DynResult.err ("AnalyzeAPK failed: " ++ e) } := by
  have hr : pymin 1 (0.2 * ((0 : Nat) : ℚ) + 0.2 * ((0 : Nat) : ℚ) + 0) = 0 := by
    norm_num [pymin]
  calc analyze_dynamic (Except.error e)
      = Except.ok
          { verdict := verdict4 (pymin 1 (0.2 * ((0 : Nat) : ℚ) + 0.2 * ((0 : Nat) : ℚ) + 0)),
            risk_score := pymin 1 (0.2 * ((0 : Nat) : ℚ) + 0.2 * ((0 : Nat) : ℚ) + 0),
            recommended_action :=
              determine_action
                (verdict4 (pymin 1 (0.2 * ((0 : Nat) : ℚ) + 0.2 * ((0 : Nat) : ℚ) + 0)))
                (pymin 1 (0.2 * ((0 : Nat) : ℚ) + 0.2 * ((0 : Nat) : ℚ) + 0)),
            logs := DynResult.err ("AnalyzeAPK failed: " ++ e) } := rfl
    _ = Except.ok
          { verdict := verdict4 0, risk_score := 0,
            recommended_action := determine_action (verdict4 0) 0,
            logs := DynResult.err ("AnalyzeAPK failed: " ++ e) } := by rw [hr]
    _ = Except.ok
          { verdict := "benign", risk_score := 0, recommended_action := "Safe to use",
            logs := DynResult.err ("AnalyzeAPK failed: " ++ e) } := by
          have h1 : verdict4 0 = "benign" := by norm_num [verdict4]
          rw [h1]
          have h2 : determine_action "benign" 0 = "Safe to use" := by decide
          rw [h2]

/-- Counterexample to C1: on a container-parse failure the dynamic endpoint does
not fail — it returns a normal response with verdict `benign`, risk score 0 and a
logs object holding only the error message. -/
theorem C1_counterexample :
    analyze_dynamic (Except.error "not a zip") =
      Except.ok
        { verdict := "benign", risk_score := 0, recommended_action := "Safe to use",
          logs := DynResult.err "AnalyzeAPK failed: not a zip" } :=
  analyze_dynamic_on_error "not a zip" 

/-- Claim C1 as amended: a container-parse failure is fatal for the static and
hybrid operations, which fail with a single error carrying the diagnostic and
return no feature record; the dynamic operation instead catches it and returns a
successful response with verdict `benign`, risk score 0, action `Safe to use`,
and a logs object carrying only the diagnostic (no feature collections). -/
theorem C1_amended :
    ∀ (e : String) (model : Option (List ℚ → ℚ)),
      analyze_static (Except.error e) = Except.error ("Static analysis failed: " ++ e)
      ∧ analyze_hybrid model (Except.error e) = Except.error ("Hybrid analysis failed: " ++ e)
      ∧ analyze_dynamic (Except.error e) =
          Except.ok
            { verdict := "benign", risk_score := 0, recommended_action := "Safe to use",
              logs := DynResult.err ("AnalyzeAPK failed: " ++ e) } := by
  intro e model
  refine ⟨rfl, ?_, analyze_dynamic_on_error e⟩
  cases model <;> rfl

/-! ## Claim C10 -/

/-- Claim C10 (confirmed): whenever the container parses, the SMS-usage flag of the
dynamic feature record is true — the tested set always includes the fixed 9-entry
signature table, which contains a needle containing `SmsManager` — so the flag is
independent of the package, and the dynamic endpoint's heuristic score is always
at least 0.3. -/
theorem C10_sms_flag :
    ∀ a : ApkData,
      (dynamic_features (Except.ok a)).smsUsed = true
      ∧ ∃ resp : DynResponse,
          analyze_dynamic (Except.ok a) = Except.ok resp ∧ (0.3 : ℚ) ≤ resp.risk_score := by
  intro a
  have hsms : (dynamic_features (Except.ok a)).smsUsed = true := by
    simp only [dynamic_features, DynResult.smsUsed]
    rw [List.any_eq_true]
    exact ⟨"android/telephony/SmsManager;->sendTextMessage",
      List.mem_append_right _ (by decide), by decide⟩
  refine ⟨hsms, ⟨_, rfl, ?_⟩⟩
  show (0.3 : ℚ) ≤ pymin 1
    (0.2 * ((dynamic_features (Except.ok a)).networkCalls.length : ℚ)
      + 0.2 * ((dynamic_features (Except.ok a)).systemCalls.length : ℚ)
      + (if (dynamic_features (Except.ok a)).smsUsed then (0.3 : ℚ) else 0))
  rw [hsms, if_pos rfl, pymin_eq_min, le_min_iff]
  have h1 : (0 : ℚ) ≤ ((dynamic_features (Except.ok a)).networkCalls.length : ℚ) :=
    Nat.cast_nonneg _
  have h2 : (0 : ℚ) ≤ ((dynamic_features (Except.ok a)).systemCalls.length : ℚ) :=
    Nat.cast_nonneg _
  constructor <;> linarith

/-! ## Claim C9 -/

/-- A package whose raw bytes contain `192.168.0.1` directly preceded by a word
character. -/
def apkIpNoBoundary : ApkData :=
  { permissions := [], receivers := [], services := [], providers := [],
    intentKeys := [], callTargets := [], rawBytes := "a192.168.0.1".toList,
    fileNames := [] }

/-- Counterexample to C9: `192.168.0.1` occurs in the input `a192.168.0.1`, yet
the scan reports nothing — the pattern's leading `\b` rejects a match start that
is directly preceded by a word character, so occurrence alone does not guarantee
a hit. -/
theorem C9_counterexample :
    substr "192.168.0.1" "a192.168.0.1" = true
    ∧ scanIpsStr "a192.168.0.1" = []
    ∧ (dynamic_features (Except.ok apkIpNoBoundary)).networkIps = [] := by
  exact ⟨by decide, by decide, by decide⟩

/-- Claim C9 as amended: every string the IP scanner reports — on any input — is
four dot-separated octets, each a 1–3 digit group with numeric value at most 255
(so `999.1.1.1` can never be reported, in whole or in part); and `192.168.0.1`
is reported when it occurs at a word boundary, e.g. as the whole input, while the
whole input `999.1.1.1` yields no report. -/
theorem C9_amended :
    (∀ cs m : List Char, m ∈ ipScan false cs → DottedOcts 3 m)
    ∧ scanIpsStr "192.168.0.1" = ["192.168.0.1"]
    ∧ scanIpsStr "999.1.1.1" = []
    ∧ (∀ a : ApkData, ∀ ip ∈ (dynamic_features (Except.ok a)).networkIps,
        ∃ m : List Char, ip = strOfChars m ∧ DottedOcts 3 m) := by
  refine ⟨fun cs m hm => ipScan_sound hm, by decide, by decide, ?_⟩
  intro a ip hip
  have h1 : ip ∈ ((ipScan false a.rawBytes).map strOfChars).dedup := by
    have : (dynamic_features (Except.ok a)).networkIps =
        ssort ((ipScan false a.rawBytes).map strOfChars).dedup := rfl
    rw [this] at hip
    exact mem_ssort.1 hip
  have h2 : ip ∈ (ipScan false a.rawBytes).map strOfChars := List.mem_dedup.1 h1
  obtain ⟨m, hm, hms⟩ := List.mem_map.1 h2
  exact ⟨m, hms.symm, ipScan_sound hm⟩

/-- Witness for C9: the universal octet-shape property applied to the concrete
scan of `10.0.0.1`. -/
theorem C9_amended_witness : DottedOcts 3 ("10.0.0.1".toList) :=
  C9_amended.1 "10.0.0.1".toList "10.0.0.1".toList (by decide)

/-! ## Claim C8 -/

/-- Every Policy A bucket score lies in `[0, 1]`. -/
theorem bucketA_fst_bounds (n : Nat) : 0 ≤ (bucketA n).1 ∧ (bucketA n).1 ≤ 1 := by
  unfold bucketA
  split_ifs <;> norm_num

/-- Policy C's static sub-score lies in `[0, 1]`. -/
theorem static_score_bounds (f : RMFeats) : 0 ≤ (static_score f).1 ∧ (static_score f).1 ≤ 1 :=
  clamp01_bounds _

/-- Policy C's dynamic sub-score lies in `[0, 1]`. -/
theorem dynamic_score_bounds (lg : RMLogs) : 0 ≤ (dynamic_score lg).1 ∧ (dynamic_score lg).1 ≤ 1 :=
  clamp01_bounds _

/-- Claim C8 (confirmed): every score-producing policy returns a risk score in
`[0, 1]` (the classifier override under the assumption that the external
classifier returns a probability), and the verdict is always exactly the one the
policy's fixed threshold table assigns to that score; both threshold tables are
monotone in the score. -/
theorem C8_invariants :
    (∀ a : ApkData,
      (0 ≤ (hybrid_features a).risk_score ∧ (hybrid_features a).risk_score ≤ 1)
      ∧ ((hybrid_features a).risk_score, (hybrid_features a).verdict) ∈
          ([(0.1, "benign"), (0.35, "adware"), (0.55, "spyware"),
            (0.75, "trojan"), (0.9, "ransomware")] : List (ℚ × String)))
    ∧ (∀ (parse : Except String ApkData) (resp : StaticResponse),
        analyze_static parse = Except.ok resp →
          (0 ≤ resp.risk_score ∧ resp.risk_score ≤ 1)
          ∧ resp.verdict = verdict4 resp.risk_score)
    ∧ (∀ (parse : Except String ApkData) (resp : DynResponse),
        analyze_dynamic parse = Except.ok resp →
          (0 ≤ resp.risk_score ∧ resp.risk_score ≤ 1)
          ∧ resp.verdict = verdict4 resp.risk_score)
    ∧ (∀ (parse : Except String ApkData) (resp : HybridResponse),
        analyze_hybrid none parse = Except.ok resp →
          (0 ≤ resp.risk_score ∧ resp.risk_score ≤ 1)
          ∧ resp.verdict = verdict4 resp.risk_score)
    ∧ (∀ (prob : List ℚ → ℚ) (parse : Except String ApkData) (resp : HybridResponse),
        (∀ v : List ℚ, 0 ≤ prob v ∧ prob v ≤ 1) →
        analyze_hybrid (some prob) parse = Except.ok resp →
          (0 ≤ resp.risk_score ∧ resp.risk_score ≤ 1)
          ∧ resp.verdict = verdict4 resp.risk_score)
    ∧ (∀ f : RMFeats,
        (0 ≤ (static_score f).1 ∧ (static_score f).1 ≤ 1)
        ∧ (static_score f).2 = verdictC 0.70 0.40 (static_score f).1)
    ∧ (∀ lg : RMLogs,
        (0 ≤ (dynamic_score lg).1 ∧ (dynamic_score lg).1 ≤ 1)
        ∧ (dynamic_score lg).2 = verdictC 0.65 0.35 (dynamic_score lg).1)
    ∧ (∀ (f : RMFeats) (lg : Option RMLogs),
        (0 ≤ (hybrid_score f lg).1 ∧ (hybrid_score f lg).1 ≤ 1)
        ∧ (hybrid_score f lg).2 = verdictC 0.70 0.40 (hybrid_score f lg).1)
    ∧ (∀ x y : ℚ, x ≤ y → verdictRank4 (verdict4 x) ≤ verdictRank4 (verdict4 y))
    ∧ (∀ hi lo x y : ℚ, x ≤ y →
        verdictRank3 (verdictC hi lo x) ≤ verdictRank3 (verdictC hi lo y)) := by
  refine ⟨?_, ?_, ?_, ?_, ?_, ?_, ?_, ?_,
    fun x y h => verdict4_mono h, fun hi lo x y h => verdictC_mono h⟩
  · -- Policy A
    intro a
    have hp := hybrid_features_eq_bucketA a
    have hfst : (hybrid_features a).risk_score =
        (bucketA ((static_features a).suspicious_apis.length
          + (dynamic_features (Except.ok a)).nSystemIndicators)).1 := congrArg Prod.fst hp
    constructor
    · rw [hfst]
      exact bucketA_fst_bounds _
    · rw [hp]
      exact bucketA_mem _
  · -- Policy B, static endpoint
    intro parse resp h
    cases parse with
    | error e => simp [analyze_static] at h
    | ok a =>
      simp only [analyze_static] at h
      injection h with h2
      subst h2
      refine ⟨pymin1_bounds ?_, rfl⟩
      positivity
  · -- Policy B, dynamic endpoint
    intro parse resp h
    unfold analyze_dynamic at h
    injection h with h2
    subst h2
    have hs : (0 : ℚ) ≤ (if (dynamic_features parse).smsUsed then (0.3 : ℚ) else 0) := by
      split <;> norm_num
    have h1 : (0 : ℚ) ≤ 0.2 * ((dynamic_features parse).networkCalls.length : ℚ) := by positivity
    have h2 : (0 : ℚ) ≤ 0.2 * ((dynamic_features parse).systemCalls.length : ℚ) := by positivity
    exact ⟨pymin1_bounds (by linarith), rfl⟩
  · -- Policy B, hybrid endpoint without a classifier
    intro parse resp h
    cases parse with
    | error e => simp [analyze_hybrid] at h
    | ok a =>
      simp only [analyze_hybrid] at h
      injection h with h2
      subst h2
      have hs : (0 : ℚ) ≤
          (if (dynamic_features (Except.ok a)).smsUsed then (0.2 : ℚ) else 0) := by
        split <;> norm_num
      have h1 : (0 : ℚ) ≤
          0.15 * ((n_dangerous_perms_main (static_features a).permissions : ℚ)) := by positivity
      have h2 : (0 : ℚ) ≤ 0.15 * (((static_features a).suspicious_apis.length : ℚ)) := by
        positivity
      have h3 : (0 : ℚ) ≤
          0.2 * (((dynamic_features (Except.ok a)).networkCalls.length : ℚ)) := by positivity
      have h4 : (0 : ℚ) ≤
          0.2 * (((dynamic_features (Except.ok a)).systemCalls.length : ℚ)) := by positivity
      exact ⟨pymin1_bounds (by linarith), rfl⟩
  · -- classifier override
    intro prob parse resp hprob h
    cases parse with
    | error e => simp [analyze_hybrid] at h
    | ok a =>
      simp only [analyze_hybrid] at h
      injection h with h2
      subst h2
      exact ⟨hprob _, rfl⟩
  · -- Policy C, static
    exact fun f => ⟨static_score_bounds f, rfl⟩
  · -- Policy C, dynamic
    exact fun lg => ⟨dynamic_score_bounds lg, rfl⟩
  · -- Policy C, hybrid
    intro f lg
    cases lg with
    | none => exact ⟨static_score_bounds f, rfl⟩
    | some lg =>
      have h1 := static_score_bounds f
      have h2 := dynamic_score_bounds lg
      have hb : 0 ≤ ((static_score f).1 + (dynamic_score lg).1) / 2
          ∧ ((static_score f).1 + (dynamic_score lg).1) / 2 ≤ 1 := by
        constructor <;> [linarith [h1.1, h2.1]; linarith [h1.2, h2.2]]
      exact ⟨hb, rfl⟩

/-- The hybrid response produced for the empty package under a classifier that
always answers probability 1/2. -/
def respHybridHalf : HybridResponse :=
  { verdict := verdict4 (1 / 2), risk_score := 1 / 2,
    recommended_action := determine_action (verdict4 (1 / 2)) (1 / 2),
    style := if verdict4 (1 / 2) = "benign" then "#4CAF50" else "#F44336",
    static_features := static_features apkEmpty,
    dynamic_logs := dynamic_features (Except.ok apkEmpty) }

/-- The static response produced for the empty package. -/
def respStaticEmpty : StaticResponse :=
  { verdict := verdict4 (pymin 1 (0.2 * ((0 : Nat) : ℚ) + 0.15 * ((0 : Nat) : ℚ))),
    risk_score := pymin 1 (0.2 * ((0 : Nat) : ℚ) + 0.15 * ((0 : Nat) : ℚ)),
    recommended_action :=
      determine_action (verdict4 (pymin 1 (0.2 * ((0 : Nat) : ℚ) + 0.15 * ((0 : Nat) : ℚ))))
        (pymin 1 (0.2 * ((0 : Nat) : ℚ) + 0.15 * ((0 : Nat) : ℚ))),
    features := static_features apkEmpty }

/-- Witness for C8: the hypothesized conjuncts applied at concrete inputs — the
static endpoint on the empty package, the override under the constant-1/2
classifier, and the monotone table at 0.1 ≤ 0.9. -/
theorem C8_invariants_witness :
    ((0 ≤ respStaticEmpty.risk_score ∧ respStaticEmpty.risk_score ≤ 1)
      ∧ respStaticEmpty.verdict = verdict4 respStaticEmpty.risk_score)
    ∧ ((0 ≤ respHybridHalf.risk_score ∧ respHybridHalf.risk_score ≤ 1)
      ∧ respHybridHalf.verdict = verdict4 respHybridHalf.risk_score)
    ∧ verdictRank4 (verdict4 (0.1 : ℚ)) ≤ verdictRank4 (verdict4 (0.9 : ℚ)) :=
  ⟨C8_invariants.2.1 (Except.ok apkEmpty) respStaticEmpty rfl,
   C8_invariants.2.2.2.2.1 (fun _ => 1 / 2) (Except.ok apkEmpty) respHybridHalf
     (fun _ => ⟨by norm_num, by norm_num⟩) rfl,
   C8_invariants.2.2.2.2.2.2.2.2.1 0.1 0.9 (by norm_num)⟩
